import Mathlib

/-!
# mason-cli (cli-v2): flag translation and passthrough dispatch

A shallow embedding of `cli-v2/cmd`: the flag translator `getFlags` / `GetFlags`
(root.go), the passthrough executor `Passthrough` (root.go) and the command
handlers (one per file of `cmd/`).

* A `*cobra.Command` is seen through what the handlers use of it: the flag set
  `c.Flags()` (a list of registered flags, each bound to a Go variable) and the
  values of those variables.
* The effects of a handler (lines printed with `fmt.Println`, child processes
  started by `Passthrough`) are returned as a list of events, in program order.
* Indexing and slicing a Go slice out of range is a run-time panic; handlers
  return `Except String _`, where `.error` is such a panic.
-/

namespace MasonCli

/-! ## Flags (spf13/pflag, as used by the handlers) -/

/-- The type of a registered flag: `Value.Type()` is `"bool"` or `"string"`. -/
inductive FlagKind
  | bool
  | string
  deriving DecidableEq, Repr

/-- One flag registered on a flag set by `BoolVarP`, `StringVarP`, `BoolP` or `Bool`.
`var` identifies the Go variable the flag's value lives in (`&assumeYes`, `&token`, ...);
flags registered with the same pointer share their value. -/
structure Flag where
  name : String
  shorthand : String
  kind : FlagKind
  var : String
  deriving DecidableEq, Repr

/-- Values of the Go variables the flags are bound to. -/
structure Vars where
  bools : String → Bool
  strings : String → String

/-- Every variable at its registration default: `false` and `""`. -/
def Vars.init : Vars := ⟨fun _ => false, fun _ => ""⟩

/-- A `*cobra.Command` as the handlers see it: its merged flag set `c.Flags()` and the
current values of the variables behind the flags. -/
structure Command where
  flags : List Flag
  vars : Vars

/-- The registered flag of that name (`FlagSet.lookup`). -/
def Command.lookup (c : Command) (name : String) : Option Flag :=
  c.flags.find? (fun f => f.name == name)

/-- Lookup `c.Flags().GetBool(name)`: an error when the flag is not defined or is not a
bool flag, else the current value. -/
def Command.GetBool (c : Command) (name : String) : Except String Bool :=
  match c.lookup name with
  | none => .error ("flag accessed but not defined: " ++ name)
  | some f =>
    match f.kind with
    | .bool => .ok (c.vars.bools f.var)
    | .string => .error ("trying to get bool value of flag of type string")

/-- Lookup `c.Flags().GetString(name)`: an error when the flag is not defined or is not a
string flag, else the current value. -/
def Command.GetString (c : Command) (name : String) : Except String String :=
  match c.lookup name with
  | none => .error ("flag accessed but not defined: " ++ name)
  | some f =>
    match f.kind with
    | .string => .ok (c.vars.strings f.var)
    | .bool => .error ("trying to get string value of flag of type bool")

/-- Go's `v, _ := lookup`: the error is thrown away; pflag returns `false` with an error. -/
def boolOrZero : Except String Bool → Bool
  | .ok b => b
  | .error _ => false

/-- Go's `v, _ := lookup`: the error is thrown away; pflag returns `""` with an error. -/
def stringOrZero : Except String String → String
  | .ok s => s
  | .error _ => ""

/-! ## root.go: descriptors and the translator -/

/-- The Go struct `passthroughFlag` of root.go. -/
structure passthroughFlag where
  name : String
  shorthand : String
  deriving DecidableEq, Repr

/-- The constructor `NewPassthroughFlag` of root.go. -/
def NewPassthroughFlag (name shorthand : String) : passthroughFlag :=
  { name := name, shorthand := shorthand }

/-- The global flags available on every legacy command (root.go, `persistentFlags`). -/
def persistentFlags : List passthroughFlag :=
  [ NewPassthroughFlag "token" "t",
    NewPassthroughFlag "version" "",
    NewPassthroughFlag "api-key" "",
    NewPassthroughFlag "debug" "d",
    NewPassthroughFlag "verbosity" "v" ]

/-- The function `getFlags` of root.go: the `for _, f := range flags` loop, one descriptor
per recursive call, `passThroughArgs` being the slice that is appended to. -/
def getFlags (c : Command) (passThroughArgs : List String) :
    List passthroughFlag → List String
  | [] => passThroughArgs
  | f :: flags =>
    let b := boolOrZero (c.GetBool f.name)
    if b then
      if f.shorthand ≠ "" then
        getFlags c (passThroughArgs ++ ["-" ++ f.shorthand]) flags
      else
        getFlags c (passThroughArgs ++ ["--" ++ f.name]) flags
    else
      let s := stringOrZero (c.GetString f.name)
      if s.utf8ByteSize > 0 then
        if f.shorthand ≠ "" then
          getFlags c ((passThroughArgs ++ ["-" ++ f.shorthand]) ++ [s]) flags
        else
          getFlags c ((passThroughArgs ++ ["--" ++ f.name]) ++ [s]) flags
      else
        getFlags c passThroughArgs flags

/-- The function `GetFlags` of root.go; the package-level `rootCmd` it reads is the first
argument. -/
def GetFlags (rootCmd c : Command) (pt : List String) (flags : List passthroughFlag) :
    List String :=
  let pt := getFlags c pt flags
  let pt := getFlags rootCmd pt persistentFlags
  pt

/-! ## Parsing the command line (pflag `FlagSet.Parse`) -/

/-- Go's `strconv.ParseBool`, used by `Set` on a bool flag. -/
def parseBool (s : String) : Option Bool :=
  if s ∈ ["1", "t", "T", "TRUE", "true", "True"] then some true
  else if s ∈ ["0", "f", "F", "FALSE", "false", "False"] then some false
  else none

/-- The call `flag.Value.Set(value)`: writes the Go variable the flag is bound to. -/
def Vars.set (σ : Vars) (flag : Flag) (value : String) : Except String Vars :=
  match flag.kind with
  | .bool =>
    match parseBool value with
    | some b => .ok { σ with bools := fun v => if v = flag.var then b else σ.bools v }
    | none => .error ("invalid argument for --" ++ flag.name)
  | .string => .ok { σ with strings := fun v => if v = flag.var then value else σ.strings v }

/-- A series of shorthand letters (`parseShortArg`): `-y`, `-yp`, `-p5000`, `-p=5000`,
`-p`. A bool flag takes no value (`NoOptDefVal` is `"true"`). When the last letter is a
string flag with no value attached, that flag is returned: its value is the next
argument. -/
def parseShorts (flags : List Flag) :
    Vars → List Char → Except String (Vars × Option Flag)
  | σ, [] => .ok (σ, none)
  | σ, ch :: rest =>
    match flags.find? (fun f => f.shorthand == String.singleton ch) with
    | none => .error ("unknown shorthand flag: " ++ String.singleton ch)
    | some flag =>
      match rest with
      | '=' :: v :: vs => (σ.set flag (String.mk (v :: vs))).map (fun σ => (σ, none))
      | _ =>
        match flag.kind with
        | .bool => (σ.set flag "true").bind (fun σ => parseShorts flags σ rest)
        | .string =>
          match rest with
          | _ :: _ => (σ.set flag (String.mk rest)).map (fun σ => (σ, none))
          | [] => .ok (σ, some flag)

/-- The loop `parseArgs` of pflag with interspersed arguments: `--name`, `--name=value`,
`--name value`, shorthand series, the terminator `--`, and positional arguments, which are
collected in `pos`. Returns the variables after all `Set` calls and the positionals. -/
def parseArgs (flags : List Flag) :
    Vars → List String → List String → Except String (Vars × List String)
  | σ, pos, [] => .ok (σ, pos)
  | σ, pos, s :: args =>
    match s.data with
    | ['-', '-'] => .ok (σ, pos ++ args)
    | '-' :: '-' :: nm =>
      let name := nm.takeWhile (fun ch => ch != '=')
      let value := nm.dropWhile (fun ch => ch != '=')
      if name = [] ∨ name.head? = some '-' then
        .error ("bad flag syntax: " ++ s)
      else
        match flags.find? (fun f => f.name == String.mk name) with
        | none => .error ("unknown flag: --" ++ String.mk name)
        | some flag =>
          match value with
          | _ :: v => (σ.set flag (String.mk v)).bind (fun σ => parseArgs flags σ pos args)
          | [] =>
            match flag.kind with
            | .bool => (σ.set flag "true").bind (fun σ => parseArgs flags σ pos args)
            | .string =>
              match args with
              | [] => .error ("flag needs an argument: " ++ s)
              | v :: args => (σ.set flag v).bind (fun σ => parseArgs flags σ pos args)
    | '-' :: ch :: chs =>
      match parseShorts flags σ (ch :: chs) with
      | .error e => .error e
      | .ok (σ, none) => parseArgs flags σ pos args
      | .ok (σ, some flag) =>
        match args with
        | [] => .error ("flag needs an argument: " ++ s)
        | v :: args => (σ.set flag v).bind (fun σ => parseArgs flags σ pos args)
    | _ => parseArgs flags σ (pos ++ [s]) args

/-! ## Effects, the executor and Go slices -/

/-- What a handler does, in program order. -/
inductive Event
  /-- The call `fmt.Println(line)`: one line on standard output. -/
  | println (line : String)
  /-- The call `exec.Command(name, arg...).Run()`: one child process. -/
  | exec (name : String) (arg : List String)
  deriving DecidableEq, Repr

/-- The outcome of running the child `name arg...`: `none` when `cmd.Run()` returns a nil
error, `some e` when it returns an error whose text `err.Error()` is `e`. -/
abbrev Runner := String → List String → Option String

/-- The type of a cobra `Run` function; `.error` is a Go run-time panic. -/
abbrev Handler := Command → List String → Except String (List Event)

/-- The function `Passthrough` of root.go ("Pass command to CLI-V1"). -/
def Passthrough (run : Runner) (sub : List String) : List Event :=
  let root := "mason"
  match run root sub with
  | some err => [Event.exec root sub, Event.println ("Command failed: " ++ err)]
  | none => [Event.exec root sub]

/-- Go's `args[i]`: panics when `i` is out of range. -/
def index (args : List String) (i : Nat) : Except String String :=
  match args.get? i with
  | some a => .ok a
  | none => .error "index out of range"

/-- Go's `args[i:]`: panics when `i > len(args)`. -/
def sliceFrom (args : List String) (i : Nat) : Except String (List String) :=
  if i ≤ args.length then .ok (args.drop i) else .error "slice bounds out of range"

/-- The package-level state the handlers read: `rootCmd`, the outcome of the child
process, and the `Run` functions of the commands whose files (pull.go, install.go,
uninstall.go, screencap.go, logcat.go) are not part of this development. -/
structure Globals where
  rootCmd : Command
  run : Runner
  pullRun : Handler
  installRun : Handler
  uninstallRun : Handler
  screencapRun : Handler
  logcatRun : Handler

/-- The child processes a handler started: name and argument vector, in order. -/
def execs : List Event → List (String × List String)
  | [] => []
  | Event.exec name arg :: es => (name, arg) :: execs es
  | Event.println _ :: es => execs es

/-- The lines a handler printed, in order. -/
def printed : List Event → List String
  | [] => []
  | Event.println line :: es => line :: printed es
  | Event.exec _ _ :: es => printed es

/-! ## Descriptor lists -/

/-- The list `adbProxyFlags` of adbproxy.go. -/
def adbProxyFlags : List passthroughFlag :=
  [ NewPassthroughFlag "port" "p" ]

/-- The list `bugreportFlags` of bugreport.go. -/
def bugreportFlags : List passthroughFlag := []

/-- The list `buildFlags` of build.go. -/
def buildFlags : List passthroughFlag :=
  [ NewPassthroughFlag "await" "",
    NewPassthroughFlag "turbo" "",
    NewPassthroughFlag "no-turbo" "" ]

/-- The list `deployFlags` of deploy.go. -/
def deployFlags : List passthroughFlag :=
  [ NewPassthroughFlag "assume-yes" "",
    NewPassthroughFlag "dry-run" "",
    NewPassthroughFlag "push" "p",
    NewPassthroughFlag "no-https" "",
    NewPassthroughFlag "yes" "y",
    NewPassthroughFlag "skip-verify" "s",
    NewPassthroughFlag "turbo" "",
    NewPassthroughFlag "no-turbo" "" ]

/-- The list `loginFlags` of login.go. -/
def loginFlags : List passthroughFlag :=
  [ NewPassthroughFlag "username" "",
    NewPassthroughFlag "user" "",
    NewPassthroughFlag "password" "p",
    NewPassthroughFlag "pass" "",
    NewPassthroughFlag "token" "t" ]

/-- The list `stageFlags` of stage.go. -/
def stageFlags : List passthroughFlag :=
  [ NewPassthroughFlag "assume-yes" "",
    NewPassthroughFlag "yes" "y",
    NewPassthroughFlag "turbo" "",
    NewPassthroughFlag "no-turbo" "",
    NewPassthroughFlag "mason.verion" "",
    NewPassthroughFlag "skip-verify" "s" ]

/-! ## The handlers -/

/-- The function `adbProxy` of adbproxy.go. -/
def adbProxy (g : Globals) (cmd : Command) (args : List String) :
    Except String (List Event) :=
  if args.length < 1 then
    .ok [Event.println "Must provide valid device ID"]
  else do
    let passthroughArgs : List String := []
    let passthroughArgs := passthroughArgs ++ ["xray"]
    let deviceID ← index args 0
    let passthroughArgs := passthroughArgs ++ [deviceID]
    let passthroughArgs := passthroughArgs ++ ["adbproxy"]
    let passthroughArgs := passthroughArgs ++ (← sliceFrom args 1)
    let passthroughArgs := GetFlags g.rootCmd cmd passthroughArgs adbProxyFlags
    pure (Passthrough g.run passthroughArgs)

/-- The function `xrayBugReport` of bugreport.go; it translates `adbProxyFlags`. -/
def xrayBugReport (g : Globals) (cmd : Command) (args : List String) :
    Except String (List Event) :=
  if args.length < 1 then
    .ok [Event.println "Must provide valid device ID"]
  else do
    let passthroughArgs : List String := []
    let passthroughArgs := passthroughArgs ++ ["xray"]
    let deviceID ← index args 0
    let passthroughArgs := passthroughArgs ++ [deviceID]
    let passthroughArgs := passthroughArgs ++ ["bugreport"]
    let passthroughArgs := passthroughArgs ++ (← sliceFrom args 1)
    let passthroughArgs := GetFlags g.rootCmd cmd passthroughArgs adbProxyFlags
    pure (Passthrough g.run passthroughArgs)

/-- The function `build` of build.go. The slice returned by `getFlags` is dropped: the
caller's `passthroughArgs` keeps its length, hence its elements. -/
def build (g : Globals) (cmd : Command) (args : List String) :
    Except String (List Event) :=
  let passthroughArgs : List String := []
  let passthroughArgs := passthroughArgs ++ ["build"]
  let passthroughArgs := passthroughArgs ++ args
  let _ := getFlags cmd passthroughArgs buildFlags
  .ok (Passthrough g.run passthroughArgs)

/-- The function `debug` of debug.go: it reads `version` from `rootCmd` as a string. -/
def debug (g : Globals) (_cmd : Command) (args : List String) :
    Except String (List Event) :=
  let passthroughArgs : List String := []
  let lookup := g.rootCmd.GetString "version"
  let version := stringOrZero lookup
  let out : List Event :=
    match lookup with
    | .error err =>
      [Event.println ("\n\t\t\tThe CLI encountered an error if this persists, " ++
        "please contact mason support: " ++ err ++ "\n\t\t")]
    | .ok _ => []
  let passthroughArgs := if version ≠ "" then passthroughArgs ++ [version] else passthroughArgs
  let passthroughArgs := passthroughArgs ++ ["debug"]
  let passthroughArgs := passthroughArgs ++ args
  .ok (out ++ Passthrough g.run passthroughArgs)

/-- The function `deploy` of deploy.go: it calls `getFlags`, not `GetFlags`, and does not
forward `args`. -/
def deploy (g : Globals) (cmd : Command) (_args : List String) :
    Except String (List Event) :=
  let passthroughArgs : List String := []
  let passthroughArgs := passthroughArgs ++ ["deploy"]
  let passthroughArgs := getFlags cmd passthroughArgs deployFlags
  .ok (Passthrough g.run passthroughArgs)

/-- The function `deployApk` of deployApk.go. -/
def deployApk (g : Globals) (cmd : Command) (args : List String) :
    Except String (List Event) :=
  let passThroughArgs : List String := []
  let passThroughArgs := passThroughArgs ++ ["deploy"]
  let passThroughArgs := passThroughArgs ++ ["apk"]
  let passThroughArgs := passThroughArgs ++ args
  let passThroughArgs := GetFlags g.rootCmd cmd passThroughArgs deployFlags
  .ok (Passthrough g.run passThroughArgs)

/-- The function `login` of login.go. -/
def login (g : Globals) (cmd : Command) (args : List String) :
    Except String (List Event) :=
  let passThroughArgs : List String := []
  let passThroughArgs := passThroughArgs ++ ["login"]
  let passThroughArgs := passThroughArgs ++ args
  let passThroughArgs := GetFlags g.rootCmd cmd passThroughArgs loginFlags
  .ok (Passthrough g.run passThroughArgs)

/-- The function `logout` of logout.go. -/
def logout (g : Globals) (_cmd : Command) (_args : List String) :
    Except String (List Event) :=
  let passThroughArgs : List String := []
  let passThroughArgs := passThroughArgs ++ ["logout"]
  .ok (Passthrough g.run passThroughArgs)

/-- The function `xrayPush` of push.go. -/
def xrayPush (g : Globals) (_cmd : Command) (args : List String) :
    Except String (List Event) :=
  if args.length < 3 then
    .ok [Event.println "Must provide valid device ID, source file, and destination path"]
  else do
    let passthroughArgs : List String := []
    let passthroughArgs := passthroughArgs ++ ["xray"]
    let deviceID ← index args 0
    let passthroughArgs := passthroughArgs ++ [deviceID]
    let passthroughArgs := passthroughArgs ++ ["push"]
    let passthroughArgs := passthroughArgs ++ (← sliceFrom args 1)
    pure (Passthrough g.run passthroughArgs)

/-- The function `register` of register.go. -/
def register (g : Globals) (_cmd : Command) (args : List String) :
    Except String (List Event) :=
  let passthroughArgs : List String := []
  let passthroughArgs := passthroughArgs ++ ["register"]
  let passthroughArgs := passthroughArgs ++ args
  .ok (Passthrough g.run passthroughArgs)

/-- The function `registerMedia` of registerMedia.go: the persistent descriptors are
translated first, against `cmd`. -/
def registerMedia (g : Globals) (cmd : Command) (args : List String) :
    Except String (List Event) :=
  let passthroughArgs : List String := []
  let passthroughArgs := getFlags cmd passthroughArgs persistentFlags
  let passthroughArgs := passthroughArgs ++ ["register", "media"]
  let passthroughArgs := passthroughArgs ++ args
  .ok (Passthrough g.run passthroughArgs)

/-- The function `registerMediaBootanimation` of registerMediaBootanimation.go. -/
def registerMediaBootanimation (g : Globals) (_cmd : Command) (args : List String) :
    Except String (List Event) :=
  let passThroughArgs : List String := []
  let passThroughArgs := passThroughArgs ++ ["register", "media", "bootanimation"]
  let passThroughArgs := passThroughArgs ++ args
  .ok (Passthrough g.run passThroughArgs)

/-- The function `registerMediaSplash` of registerMediaSplash.go. -/
def registerMediaSplash (g : Globals) (_cmd : Command) (args : List String) :
    Except String (List Event) :=
  let passthroughArgs : List String := []
  let passthroughArgs := passthroughArgs ++ ["register", "media", "splash"]
  let passthroughArgs := passthroughArgs ++ args
  .ok (Passthrough g.run passthroughArgs)

/-- The function `stage` of stage.go; the result of `GetFlags` is dropped. -/
def stage (g : Globals) (cmd : Command) (args : List String) :
    Except String (List Event) :=
  let passthroughArgs : List String := []
  let passthroughArgs := passthroughArgs ++ ["stage"]
  let _ := GetFlags g.rootCmd cmd passthroughArgs stageFlags
  let passthroughArgs := passthroughArgs ++ args
  .ok (Passthrough g.run passthroughArgs)

/-- The function `vnc` of vnc.go. -/
def vnc (g : Globals) (_cmd : Command) (args : List String) :
    Except String (List Event) :=
  if args.length < 1 then
    .ok [Event.println "Must provide valid device ID"]
  else do
    let passthroughArgs : List String := []
    let passthroughArgs := passthroughArgs ++ ["xray"]
    let deviceID ← index args 0
    let passthroughArgs := passthroughArgs ++ [deviceID]
    let passthroughArgs := passthroughArgs ++ ["desktop"]
    let passthroughArgs := passthroughArgs ++ (← sliceFrom args 1)
    pure (Passthrough g.run passthroughArgs)

/-- The function `parseXrayCommand` of xray.go. `pushCmd.Run` is `xrayPush`,
`adbproxyCmd.Run` is `adbProxy`, `bugreportCmd.Run` is `xrayBugReport`. -/
def parseXrayCommand (g : Globals) (cmd : Command) (subcmd : String) (args : List String)
    (passthroughArgs : List String) : Except String (List Event) :=
  if subcmd = "pull" then g.pullRun cmd args
  else if subcmd = "push" then xrayPush g cmd args
  else if subcmd = "install" then g.installRun cmd args
  else if subcmd = "uninstall" then g.uninstallRun cmd args
  else if subcmd = "adbproxy" then adbProxy g cmd args
  else if subcmd = "bugreport" then xrayBugReport g cmd args
  else if subcmd = "screencap" then g.screencapRun cmd args
  else if subcmd = "logcat" then g.logcatRun cmd args
  else if subcmd = "desktop" then g.logcatRun cmd args
  else .ok (Passthrough g.run passthroughArgs)

/-- The function `xrayCommand` of xray.go. -/
def xrayCommand (g : Globals) (cmd : Command) (args : List String) :
    Except String (List Event) :=
  if args.length < 2 then
    .ok [Event.println "Must provide valid device ID and xray command"]
  else do
    let passthroughArgs : List String := []
    let passthroughArgs := getFlags cmd passthroughArgs persistentFlags
    let passthroughArgs := passthroughArgs ++ args
    let deviceID ← index args 0
    let subcommand ← index args 1
    let additionalArgs ← if args.length > 2 then sliceFrom args 2 else pure []
    let subArgs := [deviceID] ++ additionalArgs
    parseXrayCommand g cmd subcommand subArgs passthroughArgs

/-! ## Flag registration (the `init` functions) and running a command

The variables `assumeYes`, `push`, `portFlag`, ... are package-level variables declared
outside the files at hand; their types follow from `BoolVarP` / `StringVarP`. A flag
registered without a pointer (`BoolP`, `Bool`) or with a pointer to a variable local to
`init` owns its variable, named after the command here. -/

/-- The persistent flags that `init` of root.go registers on `rootCmd`. -/
def rootCmdPersistentFlags : List Flag :=
  [ ⟨"config", "", .string, "cfgFile"⟩,
    ⟨"version", "V", .bool, "version"⟩,
    ⟨"api-key", "", .string, "apiKeyRoot"⟩,
    ⟨"token", "t", .string, "token"⟩,
    ⟨"access-token", "", .string, "token"⟩,
    ⟨"id-token", "", .string, "token"⟩,
    ⟨"no-color", "", .string, "token"⟩,
    ⟨"debug", "d", .string, "token"⟩,
    ⟨"verbose", "", .string, "token"⟩,
    ⟨"verbosity", "v", .string, "token"⟩ ]

/-- The flags that `init` of adbproxy.go registers on `adbproxyCmd`. -/
def adbproxyCmdFlags : List Flag :=
  [ ⟨"port", "p", .string, "portFlag"⟩ ]

/-- The flags that `init` of build.go registers on `buildCmd`. -/
def buildCmdFlags : List Flag :=
  [ ⟨"await", "", .bool, "await"⟩,
    ⟨"turbo", "", .bool, "turbo"⟩,
    ⟨"no-turbo", "", .bool, "noTurbo"⟩ ]

/-- The flags that `init` of deploy.go registers on `deployCmd`. -/
def deployCmdFlags : List Flag :=
  [ ⟨"assume-yes", "", .bool, "assumeYes"⟩,
    ⟨"yes", "y", .bool, "assumeYes"⟩,
    ⟨"push", "p", .bool, "push"⟩,
    ⟨"no-https", "", .bool, "noHTTPS"⟩,
    ⟨"skip-verify", "", .bool, "skipVerify"⟩,
    ⟨"turbo", "", .bool, "turbo"⟩,
    ⟨"no-turbo", "", .bool, "noTurbo"⟩,
    ⟨"dry-run", "", .bool, "deployCmd.dry-run"⟩ ]

/-- The flags that `init` of deployApk.go registers on `deployApkCmd`. -/
def deployApkCmdFlags : List Flag :=
  [ ⟨"assume-yes", "", .bool, "assumeYes"⟩,
    ⟨"yes", "y", .bool, "assumeYes"⟩,
    ⟨"dry-run", "", .bool, "dryRun"⟩,
    ⟨"push", "p", .bool, "push"⟩,
    ⟨"no-https", "", .bool, "noHTTPS"⟩,
    ⟨"skip-verify", "", .bool, "skipVerify"⟩,
    ⟨"turbo", "", .bool, "turbo"⟩,
    ⟨"no-turbo", "", .bool, "noTurbo"⟩,
    ⟨"mason-version", "", .string, "masonVersion"⟩ ]

/-- The flags that `init` of deployConfig.go registers on `deployConfigCmd`. -/
def deployConfigCmdFlags : List Flag :=
  [ ⟨"await", "", .bool, "await"⟩,
    ⟨"assume-yes", "", .bool, "assumeYes"⟩,
    ⟨"yes", "y", .bool, "assumeYes"⟩,
    ⟨"dry-run", "", .bool, "dryRun"⟩,
    ⟨"push", "p", .bool, "push"⟩,
    ⟨"no-https", "", .bool, "noHTTPS"⟩,
    ⟨"skip-verify", "", .bool, "skipVerify"⟩,
    ⟨"turbo", "", .bool, "turbo"⟩,
    ⟨"no-turbo", "", .bool, "noTurbo"⟩,
    ⟨"mason-version", "", .string, "masonVersion"⟩ ]

/-- The flags that `init` of login.go registers on `loginCmd`. -/
def loginCmdFlags : List Flag :=
  [ ⟨"username", "", .string, "username"⟩,
    ⟨"user", "u", .string, "username"⟩,
    ⟨"password", "p", .string, "password"⟩,
    ⟨"pass", "", .string, "username"⟩,
    ⟨"token", "t", .string, "apiKey"⟩ ]

/-- The flags that `init` of registerConfig.go and of registerProject.go register on
`registerConfigCmd` and on `registerProjectCmd` (the same list). -/
def registerConfigCmdFlags : List Flag :=
  [ ⟨"assume-yes", "", .bool, "assumeYes"⟩,
    ⟨"yes", "", .bool, "assumeYes"⟩,
    ⟨"dry-run", "", .bool, "dryRun"⟩,
    ⟨"skip-verify", "s", .bool, "skipVerify"⟩,
    ⟨"await", "", .bool, "await"⟩,
    ⟨"turbo", "", .bool, "turbo"⟩,
    ⟨"no-turbo", "", .bool, "noTurbo"⟩,
    ⟨"mason-version", "", .string, "masonVersion"⟩ ]

/-- The flags that `init` of stage.go registers on `stageCmd`. -/
def stageCmdFlags : List Flag :=
  [ ⟨"yes", "", .bool, "stageCmd.yes"⟩,
    ⟨"assume-yes", "", .bool, "assumeYes"⟩,
    ⟨"turbo", "", .bool, "turbo"⟩,
    ⟨"no-turbo", "", .bool, "noTurbo"⟩,
    ⟨"mason-version", "", .string, "masonVersion"⟩,
    ⟨"skip-verify", "s", .bool, "skipVerify"⟩ ]

/-- The flags that `init` of vnc.go registers on `vncCmd`. -/
def vncCmdFlags : List Flag :=
  [ ⟨"port", "p", .string, "portFlag"⟩ ]

/-- The flags that `init` of xray.go registers on `xrayCmd`, both on its local `port`. -/
def xrayCmdFlags : List Flag :=
  [ ⟨"port", "p", .string, "xrayCmd.port"⟩,
    ⟨"output", "o", .string, "xrayCmd.port"⟩ ]

/-- Globals of a run in which the child succeeds and the handlers of the absent files do
nothing; used to evaluate handlers on concrete command lines. -/
def quietGlobals : Globals :=
  { rootCmd := ⟨rootCmdPersistentFlags, Vars.init⟩,
    run := fun _ _ => none,
    pullRun := fun _ _ => .ok [],
    installRun := fun _ _ => .ok [],
    uninstallRun := fun _ _ => .ok [],
    screencapRun := fun _ _ => .ok [],
    logcatRun := fun _ _ => .ok [] }

/-- Running a command the way cobra does once it has selected it: `argv` (what follows
the command name) is parsed against the command's flag set, which is its own flags
merged with the persistent flags of `rootCmd`; the handler then runs on the positional
arguments, `rootCmd` seeing the same variables. `.error` when parsing fails (the handler
does not run) or the handler panics. -/
def runCommand (g : Globals) (localFlags : List Flag) (h : Globals → Handler)
    (argv : List String) : Except String (List Event) :=
  match parseArgs (localFlags ++ rootCmdPersistentFlags) Vars.init [] argv with
  | .error e => .error e
  | .ok (σ, pos) =>
    h { g with rootCmd := ⟨rootCmdPersistentFlags, σ⟩ }
      ⟨localFlags ++ rootCmdPersistentFlags, σ⟩ pos

/-! ## Lemmas on the translator -/

/-- Go's `len(s) > 0` on a string is `s != ""`. -/
theorem utf8ByteSize_pos_iff (s : String) : 0 < s.utf8ByteSize ↔ s ≠ "" := by
  cases s with
  | mk cs =>
    cases cs with
    | nil => simp [String.utf8ByteSize, String.utf8ByteSize.go]
    | cons c cs =>
      have := Char.utf8Size_pos c
      simp [String.utf8ByteSize, String.utf8ByteSize.go]
      constructor
      · intro _ h; exact absurd (congrArg String.data h) (by simp)
      · intro _; omega

/-- The tokens already collected are a prefix of the result, untouched. -/
theorem getFlags_acc (c : Command) (pt : List String) (fs : List passthroughFlag) :
    getFlags c pt fs = pt ++ getFlags c [] fs := by
  induction fs generalizing pt with
  | nil => simp [getFlags]
  | cons f fs ih =>
    simp only [getFlags]
    split_ifs <;> first
      | exact ih _
      | (rw [ih]; (conv_rhs => rw [ih]); simp only [List.append_assoc, List.nil_append])

/-- Translating a concatenation is translating the parts one after the other. -/
theorem getFlags_append (c : Command) (pt : List String) (f1 f2 : List passthroughFlag) :
    getFlags c pt (f1 ++ f2) = getFlags c (getFlags c pt f1) f2 := by
  induction f1 generalizing pt with
  | nil => simp [getFlags]
  | cons f fs ih =>
    simp only [List.cons_append, getFlags]
    split_ifs <;> exact ih _

/-- Splitting the translation at one descriptor. -/
theorem getFlags_split (c : Command) (pt : List String) (pre post : List passthroughFlag)
    (f : passthroughFlag) :
    getFlags c pt (pre ++ f :: post) =
      getFlags c pt pre ++ getFlags c [] [f] ++ getFlags c [] post := by
  have h : pre ++ f :: post = pre ++ ([f] ++ post) := by simp
  rw [h, getFlags_append, getFlags_append, getFlags_acc c (getFlags c (getFlags c pt pre) [f]),
    getFlags_acc c (getFlags c pt pre) [f]]

/-- The translation of a list is the concatenation of the translations of its descriptors. -/
theorem getFlags_flatten (c : Command) (fs : List passthroughFlag) :
    getFlags c [] fs = (fs.map (fun f => getFlags c [] [f])).flatten := by
  induction fs with
  | nil => simp [getFlags]
  | cons f fs ih =>
    have h := getFlags_split c [] [] fs f
    simp only [List.nil_append] at h
    rw [h, List.map_cons, List.flatten_cons, ← ih]
    simp [getFlags]

/-- One descriptor whose bool lookup is true. -/
theorem getFlags_single_true (c : Command) (f : passthroughFlag)
    (hb : c.GetBool f.name = .ok true) :
    getFlags c [] [f] = [if f.shorthand ≠ "" then "-" ++ f.shorthand else "--" ++ f.name] := by
  simp only [getFlags, hb, boolOrZero]
  split_ifs <;> simp_all

/-- One descriptor whose bool lookup is not true and whose string lookup is `s`, non-empty. -/
theorem getFlags_single_string (c : Command) (f : passthroughFlag) (s : String)
    (hb : boolOrZero (c.GetBool f.name) = false)
    (hs : stringOrZero (c.GetString f.name) = s) (hne : s ≠ "") :
    getFlags c [] [f] =
      [if f.shorthand ≠ "" then "-" ++ f.shorthand else "--" ++ f.name, s] := by
  have hpos : 0 < s.utf8ByteSize := (utf8ByteSize_pos_iff s).2 hne
  simp only [getFlags, hb, hs]
  split_ifs <;> simp_all

/-- One descriptor whose bool lookup is not true and whose string lookup is empty. -/
theorem getFlags_single_unset (c : Command) (f : passthroughFlag)
    (hb : boolOrZero (c.GetBool f.name) = false)
    (hs : stringOrZero (c.GetString f.name) = "") :
    getFlags c [] [f] = [] := by
  simp [getFlags, hb, hs, String.utf8ByteSize, String.utf8ByteSize.go]

theorem boolOrZero_false_of (r : Except String Bool)
    (h : r = .ok false ∨ ∃ e, r = .error e) : boolOrZero r = false := by
  rcases h with h | ⟨e, h⟩ <;> simp [h, boolOrZero]

theorem stringOrZero_empty_of (r : Except String String)
    (h : r = .ok "" ∨ ∃ e, r = .error e) : stringOrZero r = "" := by
  rcases h with h | ⟨e, h⟩ <;> simp [h, stringOrZero]

/-- When every descriptor is unset, nothing is appended. -/
theorem getFlags_all_unset (c : Command) (pt : List String) (fs : List passthroughFlag)
    (h : ∀ f ∈ fs,
      (c.GetBool f.name = .ok false ∨ ∃ e, c.GetBool f.name = .error e) ∧
      (c.GetString f.name = .ok "" ∨ ∃ e, c.GetString f.name = .error e)) :
    getFlags c pt fs = pt := by
  induction fs with
  | nil => rfl
  | cons f fs ih =>
    have hf := h f (List.mem_cons_self _ _)
    have h0 := getFlags_split c pt [] fs f
    simp only [List.nil_append] at h0
    rw [h0, getFlags_single_unset c f (boolOrZero_false_of _ hf.1)
      (stringOrZero_empty_of _ hf.2), List.append_nil]
    have h1 : getFlags c pt [] = pt := rfl
    rw [h1, ← getFlags_acc]
    exact ih (fun f' hf' => h f' (List.mem_cons_of_mem _ hf'))

/-- The result of `GetFlags`: `pt`, the tokens of `fs` on `c`, the persistent tokens on
`rootCmd`. -/
theorem GetFlags_eq (rootCmd c : Command) (pt : List String) (fs : List passthroughFlag) :
    GetFlags rootCmd c pt fs =
      pt ++ getFlags c [] fs ++ getFlags rootCmd [] persistentFlags := by
  have hg : GetFlags rootCmd c pt fs = getFlags rootCmd (getFlags c pt fs) persistentFlags :=
    rfl
  rw [hg, getFlags_acc rootCmd, getFlags_acc c pt fs]

/-! ## Lemmas on the handlers -/

/-- The only child process of `Passthrough` is `mason` with the given tokens. -/
theorem execs_Passthrough (run : Runner) (sub : List String) :
    execs (Passthrough run sub) = [("mason", sub)] := by
  simp only [Passthrough]
  cases h : run "mason" sub <;> rfl

theorem adbProxy_nil (g : Globals) (cmd : Command) :
    adbProxy g cmd [] = .ok [Event.println "Must provide valid device ID"] := rfl

theorem adbProxy_cons (g : Globals) (cmd : Command) (d : String) (rest : List String) :
    adbProxy g cmd (d :: rest) =
      .ok (Passthrough g.run (["xray", d, "adbproxy"] ++ rest
        ++ getFlags cmd [] adbProxyFlags ++ getFlags g.rootCmd [] persistentFlags)) := by
  simp only [adbProxy, index, sliceFrom, bind, Except.bind, pure, Except.pure, GetFlags_eq]
  simp

theorem xrayBugReport_nil (g : Globals) (cmd : Command) :
    xrayBugReport g cmd [] = .ok [Event.println "Must provide valid device ID"] := rfl

theorem xrayBugReport_cons (g : Globals) (cmd : Command) (d : String) (rest : List String) :
    xrayBugReport g cmd (d :: rest) =
      .ok (Passthrough g.run (["xray", d, "bugreport"] ++ rest
        ++ getFlags cmd [] adbProxyFlags ++ getFlags g.rootCmd [] persistentFlags)) := by
  simp only [xrayBugReport, index, sliceFrom, bind, Except.bind, pure, Except.pure,
    GetFlags_eq]
  simp

theorem vnc_nil (g : Globals) (cmd : Command) :
    vnc g cmd [] = .ok [Event.println "Must provide valid device ID"] := rfl

theorem vnc_cons (g : Globals) (cmd : Command) (d : String) (rest : List String) :
    vnc g cmd (d :: rest) = .ok (Passthrough g.run (["xray", d, "desktop"] ++ rest)) := by
  simp only [vnc, index, sliceFrom, bind, Except.bind, pure, Except.pure]
  simp

theorem xrayPush_short (g : Globals) (cmd : Command) (args : List String)
    (h : args.length < 3) :
    xrayPush g cmd args =
      .ok [Event.println "Must provide valid device ID, source file, and destination path"] := by
  simp [xrayPush, h]

theorem xrayPush_cons (g : Globals) (cmd : Command) (d a b : String) (rest : List String) :
    xrayPush g cmd (d :: a :: b :: rest) =
      .ok (Passthrough g.run (["xray", d, "push"] ++ (a :: b :: rest))) := by
  simp only [xrayPush, index, sliceFrom, bind, Except.bind, pure, Except.pure]
  simp

theorem login_eq (g : Globals) (cmd : Command) (args : List String) :
    login g cmd args =
      .ok (Passthrough g.run (["login"] ++ args
        ++ getFlags cmd [] loginFlags ++ getFlags g.rootCmd [] persistentFlags)) := by
  simp only [login, GetFlags_eq, List.nil_append]

theorem deployApk_eq (g : Globals) (cmd : Command) (args : List String) :
    deployApk g cmd args =
      .ok (Passthrough g.run (["deploy", "apk"] ++ args
        ++ getFlags cmd [] deployFlags ++ getFlags g.rootCmd [] persistentFlags)) := by
  simp only [deployApk, GetFlags_eq, List.nil_append]
  rfl

theorem registerMedia_eq (g : Globals) (cmd : Command) (args : List String) :
    registerMedia g cmd args =
      .ok (Passthrough g.run (getFlags cmd [] persistentFlags ++ ["register", "media"]
        ++ args)) := rfl

theorem xrayCommand_short (g : Globals) (cmd : Command) (args : List String)
    (h : args.length < 2) :
    xrayCommand g cmd args =
      .ok [Event.println "Must provide valid device ID and xray command"] := by
  simp [xrayCommand, h]

/-- What `xrayCommand` hands to the router on at least two arguments. -/
theorem xrayCommand_cons (g : Globals) (cmd : Command) (d sub : String) (rest : List String) :
    xrayCommand g cmd (d :: sub :: rest) =
      parseXrayCommand g cmd sub (d :: rest)
        (getFlags cmd [] persistentFlags ++ (d :: sub :: rest)) := by
  cases rest <;>
    simp [xrayCommand, index, sliceFrom, bind, Except.bind, pure, Except.pure]

/-- The `default` branch of the router. -/
theorem parseXrayCommand_default (g : Globals) (cmd : Command) (sub : String)
    (args pt : List String)
    (hsub : sub ∉ ["pull", "push", "install", "uninstall", "adbproxy", "bugreport",
      "screencap", "logcat", "desktop"]) :
    parseXrayCommand g cmd sub args pt = .ok (Passthrough g.run pt) := by
  simp only [List.mem_cons, List.mem_singleton, List.not_mem_nil, or_false, not_or] at hsub
  obtain ⟨h1, h2, h3, h4, h5, h6, h7, h8, h9⟩ := hsub
  simp [parseXrayCommand, h1, h2, h3, h4, h5, h6, h7, h8, h9]

/-! ## The translator: `getFlags` and `GetFlags` -/

/-- C1: a descriptor `f` of the list whose bool lookup on `c` is true contributes exactly
one token, the flag token, and no value token: the result is what was collected up to `f`,
then `"-" ++ f.shorthand` when the shorthand is non-empty and `"--" ++ f.name` otherwise,
then the tokens of the descriptors after `f`. -/
theorem getFlags_bool_true_token (c : Command) (pt : List String)
    (pre post : List passthroughFlag) (f : passthroughFlag)
    (hb : c.GetBool f.name = .ok true) :
    getFlags c pt (pre ++ f :: post) =
      getFlags c pt pre
        ++ [if f.shorthand ≠ "" then "-" ++ f.shorthand else "--" ++ f.name]
        ++ getFlags c [] post := by
  rw [getFlags_split, getFlags_single_true c f hb]

/-- Witness of C1 on the deploy command with `--yes` given: the descriptor `yes`/`y` adds
the single token `-y` between the tokens of its neighbours. -/
theorem getFlags_bool_true_token_witness :
    (Command.mk deployCmdFlags ⟨fun v => v == "assumeYes", fun _ => ""⟩).GetBool
        (NewPassthroughFlag "yes" "y").name = .ok true ∧
      getFlags (Command.mk deployCmdFlags ⟨fun v => v == "assumeYes", fun _ => ""⟩) ["deploy"]
        ([NewPassthroughFlag "push" "p"] ++
          NewPassthroughFlag "yes" "y" :: [NewPassthroughFlag "assume-yes" ""]) =
        ["deploy", "-y", "--assume-yes"] :=
  ⟨rfl, getFlags_bool_true_token _ ["deploy"] [NewPassthroughFlag "push" "p"]
    [NewPassthroughFlag "assume-yes" ""] (NewPassthroughFlag "yes" "y") rfl⟩

/-- C2: a descriptor `f` whose bool lookup is false or fails and whose string lookup is a
non-empty `s` contributes exactly two consecutive tokens: the flag token (`"-" ++ shorthand`
when the shorthand is non-empty, else `"--" ++ name`) and then `s` itself, one token,
unchanged, whatever `s` contains. -/
theorem getFlags_string_two_tokens (c : Command) (pt : List String)
    (pre post : List passthroughFlag) (f : passthroughFlag) (s : String)
    (hb : c.GetBool f.name = .ok false ∨ ∃ e, c.GetBool f.name = .error e)
    (hs : c.GetString f.name = .ok s) (hne : s ≠ "") :
    getFlags c pt (pre ++ f :: post) =
      getFlags c pt pre
        ++ [if f.shorthand ≠ "" then "-" ++ f.shorthand else "--" ++ f.name, s]
        ++ getFlags c [] post := by
  rw [getFlags_split, getFlags_single_string c f s (boolOrZero_false_of _ hb)
    (by rw [hs]; rfl) hne]

/-- Witness of C2 on the adbproxy command with the port set to `-x y z`, a value with
spaces and a leading dash: the tokens are `-p` and the value, unsplit. -/
theorem getFlags_string_two_tokens_witness :
    ((Command.mk adbproxyCmdFlags ⟨fun _ => false, fun _ => "-x y z"⟩).GetBool
          (NewPassthroughFlag "port" "p").name = .ok false ∨
        ∃ e, (Command.mk adbproxyCmdFlags ⟨fun _ => false, fun _ => "-x y z"⟩).GetBool
          (NewPassthroughFlag "port" "p").name = .error e) ∧
      (Command.mk adbproxyCmdFlags ⟨fun _ => false, fun _ => "-x y z"⟩).GetString
        (NewPassthroughFlag "port" "p").name = .ok "-x y z" ∧
      "-x y z" ≠ "" ∧
      getFlags (Command.mk adbproxyCmdFlags ⟨fun _ => false, fun _ => "-x y z"⟩)
        ["xray", "DEV", "adbproxy"] ([] ++ NewPassthroughFlag "port" "p" :: []) =
        ["xray", "DEV", "adbproxy", "-p", "-x y z"] :=
  ⟨Or.inr ⟨_, rfl⟩, rfl, by decide,
    getFlags_string_two_tokens _ ["xray", "DEV", "adbproxy"] [] []
      (NewPassthroughFlag "port" "p") "-x y z" (Or.inr ⟨_, rfl⟩) rfl (by decide)⟩

/-- C3: `getFlags` is total, and a descriptor `f` whose bool lookup is false or fails and
whose string lookup is empty or fails contributes no token, the descriptors after it being
translated as usual; when this holds for all the other descriptors too, the result is
`pt`. -/
theorem getFlags_unset_skipped (c : Command) (pt : List String)
    (pre post : List passthroughFlag) (f : passthroughFlag)
    (hb : c.GetBool f.name = .ok false ∨ ∃ e, c.GetBool f.name = .error e)
    (hs : c.GetString f.name = .ok "" ∨ ∃ e, c.GetString f.name = .error e) :
    getFlags c pt (pre ++ f :: post) = getFlags c pt pre ++ getFlags c [] post ∧
      getFlags c pt (pre ++ f :: post) = getFlags c pt (pre ++ post) ∧
      ((∀ f' ∈ pre ++ post,
          (c.GetBool f'.name = .ok false ∨ ∃ e, c.GetBool f'.name = .error e) ∧
          (c.GetString f'.name = .ok "" ∨ ∃ e, c.GetString f'.name = .error e)) →
        getFlags c pt (pre ++ f :: post) = pt) := by
  have h1 : getFlags c pt (pre ++ f :: post) = getFlags c pt pre ++ getFlags c [] post := by
    rw [getFlags_split, getFlags_single_unset c f (boolOrZero_false_of _ hb)
      (stringOrZero_empty_of _ hs), List.append_nil]
  have h2 : getFlags c pt (pre ++ post) = getFlags c pt pre ++ getFlags c [] post := by
    rw [getFlags_append, getFlags_acc]
  refine ⟨h1, h1.trans h2.symm, fun hall => ?_⟩
  rw [h1.trans h2.symm]
  exact getFlags_all_unset c pt (pre ++ post) hall

/-- Witness of C3 on the login command with nothing set: `version` is not a flag of that
set (both lookups fail) and the other descriptors are empty strings, so nothing is added. -/
theorem getFlags_unset_skipped_witness :
    getFlags (Command.mk loginCmdFlags Vars.init) ["login"]
        ([NewPassthroughFlag "username" ""] ++
          NewPassthroughFlag "version" "" :: [NewPassthroughFlag "token" "t"]) =
      ["login"] :=
  (getFlags_unset_skipped (Command.mk loginCmdFlags Vars.init) ["login"]
    [NewPassthroughFlag "username" ""] [NewPassthroughFlag "token" "t"]
    (NewPassthroughFlag "version" "") (Or.inr ⟨_, rfl⟩) (Or.inr ⟨_, rfl⟩)).2.2
    (by
      intro f' hf'
      simp only [List.cons_append, List.nil_append, List.mem_cons, List.mem_singleton,
        List.not_mem_nil, or_false] at hf'
      rcases hf' with h | h <;> subst h
      · exact ⟨Or.inr ⟨_, rfl⟩, Or.inl rfl⟩
      · exact ⟨Or.inr ⟨_, rfl⟩, Or.inl rfl⟩)

/-- C4: `GetFlags` returns `pt`, then the tokens of the descriptors of `fs` looked up on
`c`, in the order of `fs`, then the tokens of the persistent descriptors looked up on
`rootCmd`, in the order token, version, api-key, debug, verbosity. -/
theorem GetFlags_order (rootCmd c : Command) (pt : List String) (fs : List passthroughFlag) :
    GetFlags rootCmd c pt fs =
      pt ++ (fs.map (fun f => getFlags c [] [f])).flatten
        ++ (getFlags rootCmd [] [NewPassthroughFlag "token" "t"]
          ++ getFlags rootCmd [] [NewPassthroughFlag "version" ""]
          ++ getFlags rootCmd [] [NewPassthroughFlag "api-key" ""]
          ++ getFlags rootCmd [] [NewPassthroughFlag "debug" "d"]
          ++ getFlags rootCmd [] [NewPassthroughFlag "verbosity" "v"]) := by
  have hp := getFlags_flatten rootCmd persistentFlags
  simp only [persistentFlags, List.map_cons, List.map_nil, List.flatten_cons,
    List.flatten_nil, List.append_nil] at hp
  have hg : GetFlags rootCmd c pt fs = getFlags rootCmd (getFlags c pt fs) persistentFlags :=
    rfl
  rw [hg, getFlags_acc rootCmd, getFlags_acc c pt fs, getFlags_flatten c fs]
  simp only [persistentFlags, hp, List.append_assoc]

/-! ## Scenarios and the device-operation handlers -/

/-- C5, as stated, fails: for `deploy --yes --push` with no other flag the executor does
not get `["deploy", "-y", "-p"]`. -/
theorem deploy_yes_push_not_y_p :
    ¬ ∃ evs, runCommand quietGlobals deployCmdFlags deploy ["--yes", "--push"] = .ok evs ∧
      execs evs = [("mason", ["deploy", "-y", "-p"])] := by
  rintro ⟨evs, h, he⟩
  have hrun : runCommand quietGlobals deployCmdFlags deploy ["--yes", "--push"] =
      .ok [Event.exec "mason" ["deploy", "--assume-yes", "-p", "-y"]] := rfl
  rw [hrun] at h
  injection h with h
  subst h
  revert he
  decide

/-- C5, amended: for `deploy --yes --push` with no other flag set, the deploy handler passes
exactly `["deploy", "--assume-yes", "-p", "-y"]`: `--yes` sets the variable that
`assume-yes` shares, and the tokens follow the order of `deployFlags`. -/
theorem deploy_yes_push_tokens (g : Globals) :
    runCommand g deployCmdFlags deploy ["--yes", "--push"] =
      .ok (Passthrough g.run ["deploy", "--assume-yes", "-p", "-y"]) := by
  rfl

/-- C6: for every device id `d` and every `rest` of at least two strings, `xrayCommand` on
`[d, "push"] ++ rest` hands exactly `["xray", d, "push"] ++ rest` to `Passthrough`,
whatever the command, its flag values and the globals are. -/
theorem xrayCommand_push (g : Globals) (cmd : Command) (d : String) (rest : List String)
    (hrest : 2 ≤ rest.length) :
    xrayCommand g cmd ([d, "push"] ++ rest) =
      .ok (Passthrough g.run (["xray", d, "push"] ++ rest)) := by
  match rest, hrest with
  | a :: b :: rest, _ =>
    have h : [d, "push"] ++ a :: b :: rest = d :: "push" :: (a :: b :: rest) := rfl
    rw [h, xrayCommand_cons]
    have hp : parseXrayCommand g cmd "push" (d :: a :: b :: rest)
        (getFlags cmd [] persistentFlags ++ d :: "push" :: a :: b :: rest) =
        xrayPush g cmd (d :: a :: b :: rest) := rfl
    rw [hp, xrayPush_cons]

/-- Witness of C6: `xray DEVICE123 push file.txt /sdcard/file.txt`. -/
theorem xrayCommand_push_witness :
    2 ≤ ["file.txt", "/sdcard/file.txt"].length ∧
      xrayCommand quietGlobals (Command.mk (xrayCmdFlags ++ rootCmdPersistentFlags) Vars.init)
          ["DEVICE123", "push", "file.txt", "/sdcard/file.txt"] =
        .ok [Event.exec "mason" ["xray", "DEVICE123", "push", "file.txt", "/sdcard/file.txt"]] :=
  ⟨by decide, xrayCommand_push quietGlobals _ "DEVICE123" ["file.txt", "/sdcard/file.txt"]
    (by decide)⟩

/-- C7: on an args list of length 0 or 1, `xrayCommand` only prints its usage line; no
child process is started, whatever the flag values are. -/
theorem xrayCommand_usage (g : Globals) (cmd : Command) (args : List String)
    (hlen : args.length ≤ 1) :
    xrayCommand g cmd args =
        .ok [Event.println "Must provide valid device ID and xray command"] ∧
      ∀ evs, xrayCommand g cmd args = .ok evs → execs evs = [] := by
  have h := xrayCommand_short g cmd args (by omega)
  refine ⟨h, fun evs hev => ?_⟩
  rw [h] at hev
  injection hev with hev
  subst hev
  rfl

/-- Witness of C7: `xray` alone and `xray DEV`. -/
theorem xrayCommand_usage_witness :
    xrayCommand quietGlobals (Command.mk (xrayCmdFlags ++ rootCmdPersistentFlags) Vars.init)
        [] = .ok [Event.println "Must provide valid device ID and xray command"] ∧
      xrayCommand quietGlobals (Command.mk (xrayCmdFlags ++ rootCmdPersistentFlags) Vars.init)
        ["DEV"] = .ok [Event.println "Must provide valid device ID and xray command"] :=
  ⟨(xrayCommand_usage quietGlobals _ [] (by decide)).1,
    (xrayCommand_usage quietGlobals _ ["DEV"] (by decide)).1⟩

/-- C8: `adbProxy`, `xrayBugReport` and `vnc` start a child process exactly when
`len(args) >= 1`, `xrayPush` exactly when `len(args) >= 3`; when the precondition fails
the handler does nothing but print its usage line. -/
theorem device_handlers_spawn_iff (g : Globals) (cmd : Command) (args : List String) :
    ((∃ evs, adbProxy g cmd args = .ok evs ∧ execs evs ≠ []) ↔ 1 ≤ args.length) ∧
    ((∃ evs, xrayBugReport g cmd args = .ok evs ∧ execs evs ≠ []) ↔ 1 ≤ args.length) ∧
    ((∃ evs, vnc g cmd args = .ok evs ∧ execs evs ≠ []) ↔ 1 ≤ args.length) ∧
    ((∃ evs, xrayPush g cmd args = .ok evs ∧ execs evs ≠ []) ↔ 3 ≤ args.length) ∧
    (¬ 1 ≤ args.length →
      adbProxy g cmd args = .ok [Event.println "Must provide valid device ID"] ∧
      xrayBugReport g cmd args = .ok [Event.println "Must provide valid device ID"] ∧
      vnc g cmd args = .ok [Event.println "Must provide valid device ID"]) ∧
    (¬ 3 ≤ args.length →
      xrayPush g cmd args = .ok [Event.println
        "Must provide valid device ID, source file, and destination path"]) := by
  have key : ∀ (r : Except String (List Event)) (l : List String),
      r = .ok (Passthrough g.run l) → ∃ evs, r = .ok evs ∧ execs evs ≠ [] := by
    intro r l h
    exact ⟨_, h, by rw [execs_Passthrough]; exact List.cons_ne_nil _ _⟩
  have nokey : ∀ (r : Except String (List Event)) (line : String),
      r = .ok [Event.println line] → ¬ ∃ evs, r = .ok evs ∧ execs evs ≠ [] := by
    rintro r line h ⟨evs, h', he⟩
    rw [h] at h'
    injection h' with h'
    subst h'
    exact he rfl
  have hpush : (∃ evs, xrayPush g cmd args = .ok evs ∧ execs evs ≠ []) ↔ 3 ≤ args.length := by
    constructor
    · intro h
      by_contra hlt
      exact nokey _ _ (xrayPush_short g cmd args (by omega)) h
    · intro h
      match args, h with
      | d :: a :: b :: rest, _ => exact key _ _ (xrayPush_cons g cmd d a b rest)
  refine ⟨?_, ?_, ?_, hpush, ?_, fun h => xrayPush_short g cmd args (by omega)⟩
  · cases args with
    | nil => simpa using nokey _ _ (adbProxy_nil g cmd)
    | cons d rest => simpa using key _ _ (adbProxy_cons g cmd d rest)
  · cases args with
    | nil => simpa using nokey _ _ (xrayBugReport_nil g cmd)
    | cons d rest => simpa using key _ _ (xrayBugReport_cons g cmd d rest)
  · cases args with
    | nil => simpa using nokey _ _ (vnc_nil g cmd)
    | cons d rest => simpa using key _ _ (vnc_cons g cmd d rest)
  · intro h
    cases args with
    | nil => exact ⟨rfl, rfl, rfl⟩
    | cons d rest => exact absurd (by simp) h

/-- Witness of C8: on `[]` the three one-argument handlers print their usage line, on
`["DEV", "file.txt"]` `xrayPush` prints its own. -/
theorem device_handlers_spawn_iff_witness :
    (adbProxy quietGlobals (Command.mk adbproxyCmdFlags Vars.init) [] =
        .ok [Event.println "Must provide valid device ID"] ∧
      xrayBugReport quietGlobals (Command.mk adbproxyCmdFlags Vars.init) [] =
        .ok [Event.println "Must provide valid device ID"] ∧
      vnc quietGlobals (Command.mk adbproxyCmdFlags Vars.init) [] =
        .ok [Event.println "Must provide valid device ID"]) ∧
      xrayPush quietGlobals (Command.mk adbproxyCmdFlags Vars.init) ["DEV", "file.txt"] =
        .ok [Event.println
          "Must provide valid device ID, source file, and destination path"] :=
  ⟨(device_handlers_spawn_iff quietGlobals _ []).2.2.2.2.1 (by decide),
    (device_handlers_spawn_iff quietGlobals _ ["DEV", "file.txt"]).2.2.2.2.2 (by decide)⟩

/-- C9: on `d :: sub :: rest` with `sub` none of the nine routed names, `xrayCommand` hands
`Passthrough` the tokens of the persistent descriptors looked up on `cmd`, followed by the
whole original args list. -/
theorem xrayCommand_fallthrough (g : Globals) (cmd : Command) (d sub : String)
    (rest : List String)
    (hsub : sub ∉ ["pull", "push", "install", "uninstall", "adbproxy", "bugreport",
      "screencap", "logcat", "desktop"]) :
    xrayCommand g cmd (d :: sub :: rest) =
      .ok (Passthrough g.run (getFlags cmd [] persistentFlags ++ (d :: sub :: rest))) := by
  rw [xrayCommand_cons, parseXrayCommand_default g cmd sub _ _ hsub]

/-- Witness of C9: `xray DEV foo` with the api key set to `K`. -/
theorem xrayCommand_fallthrough_witness :
    "foo" ∉ ["pull", "push", "install", "uninstall", "adbproxy", "bugreport",
        "screencap", "logcat", "desktop"] ∧
      xrayCommand quietGlobals
          (Command.mk (xrayCmdFlags ++ rootCmdPersistentFlags)
            ⟨fun _ => false, fun v => if v = "apiKeyRoot" then "K" else ""⟩)
          ["DEV", "foo"] =
        .ok [Event.exec "mason" ["--api-key", "K", "DEV", "foo"]] :=
  ⟨by decide, xrayCommand_fallthrough quietGlobals _ "DEV" "foo" [] (by decide)⟩

/-! ## The order of the tokens handed to the executor -/

/-- C10, as stated, fails. `login someArg --password x` passes
`["login", "someArg", "-p", "x"]`: the positional argument precedes the flag token. And
`xray DEV foo --api-key K` passes `["--api-key", "K", "DEV", "foo"]`: the flag token comes
first and there is no command-name token. -/
theorem handler_tokens_not_name_flags_positionals :
    (runCommand quietGlobals loginCmdFlags login ["someArg", "--password", "x"] =
        .ok [Event.exec "mason" ["login", "someArg", "-p", "x"]] ∧
      ["login", "someArg", "-p", "x"] ≠ ["login"] ++ ["-p", "x"] ++ ["someArg"]) ∧
    (runCommand quietGlobals xrayCmdFlags xrayCommand ["DEV", "foo", "--api-key", "K"] =
        .ok [Event.exec "mason" ["--api-key", "K", "DEV", "foo"]] ∧
      ["--api-key", "K", "DEV", "foo"] ≠ ["xray"] ++ ["--api-key", "K"] ++ ["DEV", "foo"]) :=
  ⟨⟨rfl, by decide⟩, ⟨rfl, by decide⟩⟩

/-- C10, amended, for twelve handlers: the positional arguments that are forwarded keep
their order and follow the command-name tokens, and no flag token stands between the
two. `login` and `deployApk` pass the command-name tokens, then the positional arguments,
then the tokens of their descriptor list, then the persistent ones; `adbProxy` and
`xrayBugReport` pass `xray`, the device id, the operation name, the remaining positional
arguments, then the tokens of `adbProxyFlags`, then the persistent ones. `registerMedia`
passes the persistent tokens first, then `register media`, then the positional arguments;
the fall-through of `xrayCommand` passes the persistent tokens and then the whole args
list, with no command-name token. `register`, `registerMediaBootanimation` and
`registerMediaSplash` pass the command-name tokens, then the positional arguments; `vnc`
and `xrayPush` pass `xray`, the device id, `desktop` or `push`, then the remaining
positional arguments. `logout` passes `logout` alone and forwards no positional
argument. -/
theorem handler_token_order (g : Globals) (cmd : Command) (args : List String)
    (d sub a b : String) (rest : List String)
    (hsub : sub ∉ ["pull", "push", "install", "uninstall", "adbproxy", "bugreport",
      "screencap", "logcat", "desktop"]) :
    login g cmd args =
      .ok (Passthrough g.run (["login"] ++ args
        ++ getFlags cmd [] loginFlags ++ getFlags g.rootCmd [] persistentFlags)) ∧
    deployApk g cmd args =
      .ok (Passthrough g.run (["deploy", "apk"] ++ args
        ++ getFlags cmd [] deployFlags ++ getFlags g.rootCmd [] persistentFlags)) ∧
    adbProxy g cmd (d :: rest) =
      .ok (Passthrough g.run (["xray", d, "adbproxy"] ++ rest
        ++ getFlags cmd [] adbProxyFlags ++ getFlags g.rootCmd [] persistentFlags)) ∧
    xrayBugReport g cmd (d :: rest) =
      .ok (Passthrough g.run (["xray", d, "bugreport"] ++ rest
        ++ getFlags cmd [] adbProxyFlags ++ getFlags g.rootCmd [] persistentFlags)) ∧
    registerMedia g cmd args =
      .ok (Passthrough g.run (getFlags cmd [] persistentFlags ++ ["register", "media"]
        ++ args)) ∧
    xrayCommand g cmd (d :: sub :: rest) =
      .ok (Passthrough g.run (getFlags cmd [] persistentFlags ++ (d :: sub :: rest))) ∧
    register g cmd args = .ok (Passthrough g.run (["register"] ++ args)) ∧
    registerMediaBootanimation g cmd args =
      .ok (Passthrough g.run (["register", "media", "bootanimation"] ++ args)) ∧
    registerMediaSplash g cmd args =
      .ok (Passthrough g.run (["register", "media", "splash"] ++ args)) ∧
    logout g cmd args = .ok (Passthrough g.run ["logout"]) ∧
    vnc g cmd (d :: rest) = .ok (Passthrough g.run (["xray", d, "desktop"] ++ rest)) ∧
    xrayPush g cmd (d :: a :: b :: rest) =
      .ok (Passthrough g.run (["xray", d, "push"] ++ (a :: b :: rest))) := by
  refine ⟨login_eq g cmd args, deployApk_eq g cmd args, adbProxy_cons g cmd d rest,
    xrayBugReport_cons g cmd d rest, registerMedia_eq g cmd args, ?_, rfl, rfl, rfl, rfl,
    vnc_cons g cmd d rest, xrayPush_cons g cmd d a b rest⟩
  rw [xrayCommand_cons, parseXrayCommand_default g cmd sub _ _ hsub]

/-- Witness of C10 (amended) on the three command lines of the claim: `login someArg
--password x`, `adbproxy DEV extra --port 5000`, and `xray DEV foo` with the api key `K`. -/
theorem handler_token_order_witness :
    login quietGlobals
        (Command.mk (loginCmdFlags ++ rootCmdPersistentFlags)
          ⟨fun _ => false, fun v => if v = "password" then "x" else ""⟩) ["someArg"] =
      .ok [Event.exec "mason" ["login", "someArg", "-p", "x"]] ∧
    adbProxy quietGlobals
        (Command.mk (adbproxyCmdFlags ++ rootCmdPersistentFlags)
          ⟨fun _ => false, fun v => if v = "portFlag" then "5000" else ""⟩) ["DEV", "extra"] =
      .ok [Event.exec "mason" ["xray", "DEV", "adbproxy", "extra", "-p", "5000"]] ∧
    xrayCommand quietGlobals
        (Command.mk (xrayCmdFlags ++ rootCmdPersistentFlags)
          ⟨fun _ => false, fun v => if v = "apiKeyRoot" then "K" else ""⟩) ["DEV", "foo"] =
      .ok [Event.exec "mason" ["--api-key", "K", "DEV", "foo"]] :=
  ⟨(handler_token_order quietGlobals _ ["someArg"] "DEV" "foo" "a" "b" []
      (by decide)).1,
    (handler_token_order quietGlobals _ [] "DEV" "foo" "a" "b" ["extra"]
      (by decide)).2.2.1,
    (handler_token_order quietGlobals _ [] "DEV" "foo" "a" "b" []
      (by decide)).2.2.2.2.2.1⟩

/-! ## Stepping the translator through a descriptor list -/

/-- One step of the loop on a descriptor whose bool lookup is true. -/
theorem getFlags_cons_true (c : Command) (pt : List String) (f : passthroughFlag)
    (fs : List passthroughFlag) (hb : boolOrZero (c.GetBool f.name) = true) :
    getFlags c pt (f :: fs) =
      getFlags c (pt ++ [if f.shorthand ≠ "" then "-" ++ f.shorthand else "--" ++ f.name])
        fs := by
  simp only [getFlags, hb]
  split_ifs <;> rfl

/-- One step of the loop on a descriptor whose string lookup is `s`, non-empty. -/
theorem getFlags_cons_string (c : Command) (pt : List String) (f : passthroughFlag)
    (fs : List passthroughFlag) (s : String)
    (hb : boolOrZero (c.GetBool f.name) = false)
    (hs : stringOrZero (c.GetString f.name) = s) (hne : s ≠ "") :
    getFlags c pt (f :: fs) =
      getFlags c
        (pt ++ [if f.shorthand ≠ "" then "-" ++ f.shorthand else "--" ++ f.name, s]) fs := by
  have hpos : 0 < s.utf8ByteSize := (utf8ByteSize_pos_iff s).2 hne
  simp only [getFlags, hb, hs]
  split_ifs <;> simp_all

/-- One step of the loop on an unset descriptor. -/
theorem getFlags_cons_unset (c : Command) (pt : List String) (f : passthroughFlag)
    (fs : List passthroughFlag)
    (hb : boolOrZero (c.GetBool f.name) = false)
    (hs : stringOrZero (c.GetString f.name) = "") :
    getFlags c pt (f :: fs) = getFlags c pt fs := by
  simp [getFlags, hb, hs, String.utf8ByteSize, String.utf8ByteSize.go]

/-! ## Flags that do not reach the executor, and flags that reach it unasked -/

/-- C11, at `deploy --api-key K`: the persistent flag is set, and `deploy` passes
`["deploy"]` without it, since it calls `getFlags` and never translates the persistent
descriptors; `deployApk`, which calls `GetFlags` on the same descriptor list, passes
`--api-key K` after its own tokens. -/
theorem deploy_drops_persistent_flags (g : Globals) :
    runCommand g deployCmdFlags deploy ["--api-key", "K"] =
      .ok (Passthrough g.run ["deploy"]) ∧
    runCommand g deployApkCmdFlags deployApk ["--api-key", "K"] =
      .ok (Passthrough g.run ["deploy", "apk", "--api-key", "K"]) ∧
    getFlags (Command.mk rootCmdPersistentFlags
        ⟨fun _ => false, fun v => if v = "apiKeyRoot" then "K" else ""⟩) [] persistentFlags =
      ["--api-key", "K"] :=
  ⟨rfl, rfl, rfl⟩

/-- C12, at `build --await` and `stage --assume-yes`: the translator yields `--await` and
`--assume-yes` for these commands, but `build` and `stage` do not keep the slice the
translator returns and pass `["build"]` and `["stage"]`. -/
theorem build_stage_drop_translated_flags (g : Globals) :
    runCommand g buildCmdFlags build ["--await"] = .ok (Passthrough g.run ["build"]) ∧
    runCommand g stageCmdFlags stage ["--assume-yes"] = .ok (Passthrough g.run ["stage"]) ∧
    getFlags (Command.mk (buildCmdFlags ++ rootCmdPersistentFlags)
        ⟨fun v => v = "await", fun _ => ""⟩) ["build"] buildFlags = ["build", "--await"] ∧
    getFlags (Command.mk (stageCmdFlags ++ rootCmdPersistentFlags)
        ⟨fun v => v = "assumeYes", fun _ => ""⟩) ["stage"] stageFlags =
      ["stage", "--assume-yes"] :=
  ⟨rfl, rfl, rfl, rfl⟩

/-- C13, at `--token X`: `init` of root.go binds `debug` and `verbosity` to the variable
of `token`, so the persistent descriptors translate to `-t X -d X -v X` on the root
command, for every non-empty `X`. -/
theorem token_translates_to_debug_and_verbosity (X : String) (hX : X ≠ "") :
    (parseArgs rootCmdPersistentFlags Vars.init [] ["--token", X]).map
        (fun r => getFlags (Command.mk rootCmdPersistentFlags r.1) [] persistentFlags) =
      .ok ["-t", X, "-d", X, "-v", X] := by
  have hp : parseArgs rootCmdPersistentFlags Vars.init [] ["--token", X] =
      .ok (⟨fun _ => false, fun v => if v = "token" then X else ""⟩, []) := rfl
  simp only [hp, Except.map, persistentFlags]
  rw [getFlags_cons_string _ _ _ _ X ?_ ?_ hX, getFlags_cons_unset _ _ _ _ ?_ ?_,
    getFlags_cons_unset _ _ _ _ ?_ ?_, getFlags_cons_string _ _ _ _ X ?_ ?_ hX,
    getFlags_cons_string _ _ _ _ X ?_ ?_ hX]
  all_goals rfl

/-- Evaluation of C13 at `--token abc`. -/
theorem token_translates_to_debug_and_verbosity_witness :
    "abc" ≠ "" ∧
      (parseArgs rootCmdPersistentFlags Vars.init [] ["--token", "abc"]).map
          (fun r => getFlags (Command.mk rootCmdPersistentFlags r.1) [] persistentFlags) =
        .ok ["-t", "abc", "-d", "abc", "-v", "abc"] :=
  ⟨by decide, token_translates_to_debug_and_verbosity "abc" (by decide)⟩

/-- C14, at `login --pass X`: `init` of login.go binds `pass` to the variable of
`username` and `user`, so `login` passes `--username X --user X --pass X`, for every
non-empty `X`. -/
theorem login_pass_sets_username (g : Globals) (X : String) (hX : X ≠ "") :
    runCommand g loginCmdFlags login ["--pass", X] =
      .ok (Passthrough g.run ["login", "--username", X, "--user", X, "--pass", X]) := by
  have hp : parseArgs (loginCmdFlags ++ rootCmdPersistentFlags) Vars.init [] ["--pass", X] =
      .ok (⟨fun _ => false, fun v => if v = "username" then X else ""⟩, []) := rfl
  simp only [runCommand, hp, login_eq, loginFlags, persistentFlags]
  rw [getFlags_cons_string _ _ _ _ X ?_ ?_ hX, getFlags_cons_string _ _ _ _ X ?_ ?_ hX,
    getFlags_cons_unset _ _ _ _ ?_ ?_, getFlags_cons_string _ _ _ _ X ?_ ?_ hX,
    getFlags_cons_unset _ _ _ _ ?_ ?_]
  rw [getFlags_cons_unset _ _ _ _ ?_ ?_, getFlags_cons_unset _ _ _ _ ?_ ?_,
    getFlags_cons_unset _ _ _ _ ?_ ?_, getFlags_cons_unset _ _ _ _ ?_ ?_,
    getFlags_cons_unset _ _ _ _ ?_ ?_]
  all_goals rfl

/-- Evaluation of C14 at `login --pass secret`. -/
theorem login_pass_sets_username_witness :
    "secret" ≠ "" ∧
      runCommand quietGlobals loginCmdFlags login ["--pass", "secret"] =
        .ok [Event.exec "mason"
          ["login", "--username", "secret", "--user", "secret", "--pass", "secret"]] :=
  ⟨by decide, login_pass_sets_username quietGlobals "secret" (by decide)⟩

/-! ## The device operation vnc -/

/-- C15, as stated, fails: `xrayCommand` on `["DEV", "vnc"]` does not pass
`["xray", "DEV", "desktop"]`; it passes `["DEV", "vnc"]`. -/
theorem xrayCommand_vnc_not_desktop :
    xrayCommand quietGlobals (Command.mk (xrayCmdFlags ++ rootCmdPersistentFlags) Vars.init)
        ["DEV", "vnc"] = .ok [Event.exec "mason" ["DEV", "vnc"]] ∧
      ["DEV", "vnc"] ≠ ["xray", "DEV", "desktop"] :=
  ⟨rfl, by decide⟩

/-- C15, amended: `vnc` is not a name the router of `xrayCommand` knows, so
`[d, "vnc"] ++ rest` falls through: the executor gets the persistent tokens looked up on
`cmd`, followed by `[d, "vnc"] ++ rest` unchanged. -/
theorem xrayCommand_vnc_fallthrough (g : Globals) (cmd : Command) (d : String)
    (rest : List String) :
    xrayCommand g cmd ([d, "vnc"] ++ rest) =
      .ok (Passthrough g.run (getFlags cmd [] persistentFlags ++ ([d, "vnc"] ++ rest))) := by
  have h : [d, "vnc"] ++ rest = d :: "vnc" :: rest := rfl
  rw [h, xrayCommand_cons, parseXrayCommand_default g cmd "vnc" _ _ (by decide)]

/-- C16: on a non-empty args list, `vnc` passes `xray`, the device id `args[0]`,
`desktop`, then `args[1:]` in order; no lookup on `cmd` enters the list, so no flag token
is added. -/
theorem vnc_tokens (g : Globals) (cmd : Command) (args : List String) (hne : args ≠ []) :
    vnc g cmd args =
      .ok (Passthrough g.run (["xray", args.head hne, "desktop"] ++ args.drop 1)) := by
  cases args with
  | nil => exact absurd rfl hne
  | cons d rest => exact vnc_cons g cmd d rest

/-- Witness of C16: `vnc DEV a b` with the port flag set to `5900`. -/
theorem vnc_tokens_witness :
    vnc quietGlobals
        (Command.mk (vncCmdFlags ++ rootCmdPersistentFlags)
          ⟨fun _ => false, fun v => if v = "portFlag" then "5900" else ""⟩)
        ["DEV", "a", "b"] =
      .ok [Event.exec "mason" ["xray", "DEV", "desktop", "a", "b"]] :=
  vnc_tokens quietGlobals _ ["DEV", "a", "b"] (by decide)

/-! ## The executor -/

/-- C17: `Passthrough` prints a line exactly when the run of the child returns an error;
with error text `e` the line is `"Command failed: " ++ e`, printed with `fmt.Println`
after the run. In both cases `Passthrough` returns, and what it returns carries no exit
status: its effects are the run and, on error, the line. -/
theorem Passthrough_failure_line (run : Runner) (sub : List String) :
    (printed (Passthrough run sub) ≠ [] ↔ ∃ e, run "mason" sub = some e) ∧
    (∀ e, run "mason" sub = some e →
      Passthrough run sub =
        [Event.exec "mason" sub, Event.println ("Command failed: " ++ e)]) ∧
    (run "mason" sub = none → Passthrough run sub = [Event.exec "mason" sub]) := by
  simp only [Passthrough]
  cases h : run "mason" sub with
  | none => simp [printed]
  | some e => simp [printed]

/-- Witness of C17: a run that fails with `exit status 1`, and a run that succeeds. -/
theorem Passthrough_failure_line_witness :
    Passthrough (fun _ _ => some "exit status 1") ["build"] =
      [Event.exec "mason" ["build"], Event.println "Command failed: exit status 1"] ∧
    Passthrough (fun _ _ => none) ["build"] = [Event.exec "mason" ["build"]] :=
  ⟨(Passthrough_failure_line _ ["build"]).2.1 _ rfl,
    (Passthrough_failure_line (fun _ _ => none) ["build"]).2.2 rfl⟩

/-- C19: in the router, `desktop` does what `logcat` does, namely run the logcat handler on
the same command and arguments; it is not the `vnc` handler, from which it differs as
soon as the logcat handler does. -/
theorem parseXrayCommand_desktop_is_logcat (g : Globals) (cmd : Command)
    (args passthroughArgs : List String) :
    parseXrayCommand g cmd "desktop" args passthroughArgs =
      parseXrayCommand g cmd "logcat" args passthroughArgs ∧
    parseXrayCommand g cmd "desktop" args passthroughArgs = g.logcatRun cmd args ∧
    parseXrayCommand quietGlobals cmd "desktop" args passthroughArgs ≠
      vnc quietGlobals cmd args := by
  refine ⟨rfl, rfl, ?_⟩
  have hd : parseXrayCommand quietGlobals cmd "desktop" args passthroughArgs = .ok [] := rfl
  rw [hd]
  cases args with
  | nil => rw [vnc_nil]; intro h; injection h with h; exact absurd h (by simp)
  | cons d rest =>
    rw [vnc_cons]
    intro h
    injection h with h
    have := congrArg execs h
    rw [execs_Passthrough] at this
    exact absurd this (by simp [execs])

/-- C20: `getFlags` only appends, and the translation of a concatenation is the
concatenation of the translations: `pt`, then the tokens of `f1`, then the tokens of `f2`,
each list translated from the empty list; in general the result is `pt` followed by the
tokens of each descriptor, translated on its own, in order. -/
theorem getFlags_homomorphism (c : Command) (pt : List String)
    (f1 f2 : List passthroughFlag) :
    getFlags c pt (f1 ++ f2) = pt ++ getFlags c [] f1 ++ getFlags c [] f2 ∧
    getFlags c pt f1 = pt ++ (f1.map (fun f => getFlags c [] [f])).flatten := by
  constructor
  · rw [getFlags_append, getFlags_acc c (getFlags c pt f1), getFlags_acc c pt f1]
  · rw [getFlags_acc c pt f1, getFlags_flatten]

/-! ## One child process per invocation -/

/-- C21: `version` is registered on `rootCmd` as a bool flag and `debug` looks it up as a
string, so whatever the values of the flags are (with or without `--version`) the lookup
fails with the empty string: `debug` prints the error message and then passes exactly
`["debug"] ++ args`. -/
theorem debug_tokens (g : Globals) (cmd : Command) (args : List String)
    (hroot : g.rootCmd.flags = rootCmdPersistentFlags) :
    g.rootCmd.GetString "version" = .error "trying to get string value of flag of type bool" ∧
    debug g cmd args =
      .ok (Event.println ("\n\t\t\tThe CLI encountered an error if this persists, " ++
          "please contact mason support: " ++
          "trying to get string value of flag of type bool" ++ "\n\t\t") ::
        Passthrough g.run (["debug"] ++ args)) := by
  have hl : g.rootCmd.GetString "version" =
      .error "trying to get string value of flag of type bool" := by
    simp only [Command.GetString, Command.lookup, hroot]
    rfl
  refine ⟨hl, ?_⟩
  simp only [debug, hl]
  rfl

/-- Witness of C21: `debug a --version` and `debug a` print the same message and pass
`["debug", "a"]`. -/
theorem debug_tokens_witness :
    runCommand quietGlobals [] debug ["a", "--version"] =
      .ok [Event.println ("\n\t\t\tThe CLI encountered an error if this persists, " ++
          "please contact mason support: " ++
          "trying to get string value of flag of type bool" ++ "\n\t\t"),
        Event.exec "mason" ["debug", "a"]] ∧
    runCommand quietGlobals [] debug ["a"] =
      .ok [Event.println ("\n\t\t\tThe CLI encountered an error if this persists, " ++
          "please contact mason support: " ++
          "trying to get string value of flag of type bool" ++ "\n\t\t"),
        Event.exec "mason" ["debug", "a"]] :=
  ⟨(debug_tokens
      (Globals.mk (Command.mk rootCmdPersistentFlags ⟨fun v => v = "version", fun _ => ""⟩)
        quietGlobals.run quietGlobals.pullRun quietGlobals.installRun
        quietGlobals.uninstallRun quietGlobals.screencapRun quietGlobals.logcatRun)
      (Command.mk ([] ++ rootCmdPersistentFlags) ⟨fun v => v = "version", fun _ => ""⟩)
      ["a"] rfl).2,
    (debug_tokens
      (Globals.mk (Command.mk rootCmdPersistentFlags Vars.init)
        quietGlobals.run quietGlobals.pullRun quietGlobals.installRun
        quietGlobals.uninstallRun quietGlobals.screencapRun quietGlobals.logcatRun)
      (Command.mk ([] ++ rootCmdPersistentFlags) Vars.init) ["a"] rfl).2⟩

/-! ## Indexing the positional arguments -/

/-- C22: the device handlers never index `args` out of range. `xrayPush`, `vnc`,
`adbProxy` and `xrayBugReport` return on every args list; the accesses `args[0]`,
`args[1:]`, `args[1]`, `args[2:]` succeed under the length guards they stand behind;
`xrayCommand` prints its usage line on fewer than two arguments and otherwise hands the
router the non-empty list `d :: rest`, so that through `xrayCommand` the handlers
`adbProxy` and `xrayBugReport` always reach the executor and never their usage branch. -/
theorem handlers_index_in_range (g : Globals) (cmd : Command) (args : List String) :
    (∀ h ∈ [xrayPush, vnc, adbProxy, xrayBugReport], ∃ evs, h g cmd args = .ok evs) ∧
    (1 ≤ args.length → (∃ a, index args 0 = .ok a) ∧ sliceFrom args 1 = .ok (args.drop 1)) ∧
    (2 ≤ args.length → ∃ a, index args 1 = .ok a) ∧
    (2 < args.length → sliceFrom args 2 = .ok (args.drop 2)) ∧
    (args.length < 2 →
      xrayCommand g cmd args =
        .ok [Event.println "Must provide valid device ID and xray command"]) ∧
    (∀ d op rest, args = d :: op :: rest →
      xrayCommand g cmd args =
        parseXrayCommand g cmd op (d :: rest) (getFlags cmd [] persistentFlags ++ args) ∧
      (op ∉ ["pull", "install", "uninstall", "screencap", "logcat", "desktop"] →
        ∃ evs, xrayCommand g cmd args = .ok evs) ∧
      (op = "adbproxy" →
        xrayCommand g cmd args =
          .ok (Passthrough g.run (["xray", d, "adbproxy"] ++ rest
            ++ getFlags cmd [] adbProxyFlags ++ getFlags g.rootCmd [] persistentFlags))) ∧
      (op = "bugreport" →
        xrayCommand g cmd args =
          .ok (Passthrough g.run (["xray", d, "bugreport"] ++ rest
            ++ getFlags cmd [] adbProxyFlags ++ getFlags g.rootCmd [] persistentFlags)))) := by
  have hpush : ∀ a : List String, ∃ evs, xrayPush g cmd a = .ok evs := by
    intro a
    by_cases hlen : a.length < 3
    · exact ⟨_, xrayPush_short g cmd a hlen⟩
    · have h3 : 3 ≤ a.length := by omega
      match a, h3 with
      | d :: x :: y :: rest, _ => exact ⟨_, xrayPush_cons g cmd d x y rest⟩
  refine ⟨?_, ?_, ?_, ?_, fun h => xrayCommand_short g cmd args h, ?_⟩
  · intro h hh
    simp only [List.mem_cons, List.mem_singleton, List.not_mem_nil, or_false] at hh
    rcases hh with rfl | rfl | rfl | rfl
    · exact hpush args
    · cases args with
      | nil => exact ⟨_, vnc_nil g cmd⟩
      | cons d rest => exact ⟨_, vnc_cons g cmd d rest⟩
    · cases args with
      | nil => exact ⟨_, adbProxy_nil g cmd⟩
      | cons d rest => exact ⟨_, adbProxy_cons g cmd d rest⟩
    · cases args with
      | nil => exact ⟨_, xrayBugReport_nil g cmd⟩
      | cons d rest => exact ⟨_, xrayBugReport_cons g cmd d rest⟩
  · intro h
    cases args with
    | nil => exact absurd h (by simp)
    | cons d rest => exact ⟨⟨d, rfl⟩, by simp [sliceFrom]⟩
  · intro h
    match args, h with
    | d :: x :: rest, _ => exact ⟨x, rfl⟩
  · intro h
    simp [sliceFrom, Nat.le_of_lt h]
  · intro d op rest hargs
    subst hargs
    have hc := xrayCommand_cons g cmd d op rest
    refine ⟨hc, ?_, ?_, ?_⟩
    · intro hn
      rw [hc]
      simp only [List.mem_cons, List.mem_singleton, List.not_mem_nil, or_false, not_or] at hn
      obtain ⟨n1, n2, n3, n4, n5, n6⟩ := hn
      simp only [parseXrayCommand, n1, n2, n3, n4, n5, n6, if_false]
      split_ifs
      · exact hpush _
      · exact ⟨_, adbProxy_cons g cmd d rest⟩
      · exact ⟨_, xrayBugReport_cons g cmd d rest⟩
      · exact ⟨_, rfl⟩
    · intro hop
      subst hop
      rw [hc, ← adbProxy_cons]
      rfl
    · intro hop
      subst hop
      rw [hc, ← xrayBugReport_cons]
      rfl

/-- Witness of C22: `xray DEV adbproxy` and `xray DEV bugreport`, the shortest lists that
reach the two handlers, go to the executor. -/
theorem handlers_index_in_range_witness :
    xrayCommand quietGlobals (Command.mk (xrayCmdFlags ++ rootCmdPersistentFlags) Vars.init)
        ["DEV", "adbproxy"] = .ok [Event.exec "mason" ["xray", "DEV", "adbproxy"]] ∧
    xrayCommand quietGlobals (Command.mk (xrayCmdFlags ++ rootCmdPersistentFlags) Vars.init)
        ["DEV", "bugreport"] = .ok [Event.exec "mason" ["xray", "DEV", "bugreport"]] :=
  ⟨((handlers_index_in_range quietGlobals _ ["DEV", "adbproxy"]).2.2.2.2.2
      "DEV" "adbproxy" [] rfl).2.2.1 rfl,
    ((handlers_index_in_range quietGlobals _ ["DEV", "bugreport"]).2.2.2.2.2
      "DEV" "bugreport" [] rfl).2.2.2 rfl⟩

end MasonCli
